import Mathlib

/-!
Shallow embedding of the vcon operation-orchestration layer (client.go,
virtualMachine.go, main/main.go).  Go strings are modelled as lists of
characters where byte-index slicing matters (the path translator) and as
Lean strings elsewhere; Go error values form an inductive type carrying
the information the code inspects (dynamic type, wrap chains, messages);
remote calls are logged explicitly so frame/effect properties can be
stated; Go nil-pointer dereferences and out-of-range indexing surface as
an explicit panic result.
-/

namespace Vcon

/-- A Go error value, as inspected by this code base.  The constructors
mirror the dynamic types that flow through the program:
`timeoutExceeded` is vcon's TimeoutExceededError (with a flag recording
whether the dynamic type is the pointer type, since the call sites
type-switch on the pointer type while checkErr returns a value);
`contextDeadlineExceeded` is context.DeadlineExceeded, which
TimeoutExceededError.Cause() returns; `wrapped` is a pkg/errors
Wrap/Wrapf layer; `errorf` is a fmt.Errorf value; the last two are
vcon's ConnectionError and NotFoundError. -/
inductive GoErr where
  | timeoutExceeded (isPtr : Bool) (timeoutSecs : Nat)
  | contextDeadlineExceeded
  | wrapped (msg : String) (cause : GoErr)
  | errorf (msg : String)
  | connectionError
  | notFoundError (path : String)
deriving DecidableEq, Repr

/-- pkg/errors.Cause: repeatedly unwrap while the value has a Cause()
method.  Wrap layers expose their cause; TimeoutExceededError has a
Cause() method returning context.DeadlineExceeded (virtualMachine.go:159);
context.DeadlineExceeded, fmt.Errorf values, ConnectionError and
NotFoundError have no Cause() method, so the loop stops there. -/
def errorsCause : GoErr → GoErr
  | .wrapped _ e => errorsCause e
  | .timeoutExceeded _ _ => .contextDeadlineExceeded
  | e => e

/-- Client.checkErr (client.go:602-614): if the deadline scope has
elapsed (ctx.Done() is ready), return a fresh TimeoutExceededError value
carrying the configured timeout, regardless of the underlying call's
error; otherwise pass the underlying error (or nil) through unchanged.
The returned TimeoutExceededError is a value, not a pointer
(isPtr = false). -/
def checkErr (timeoutSecs : Nat) (ctxDone : Bool) (err : Option GoErr) : Option GoErr :=
  if ctxDone then some (.timeoutExceeded false timeoutSecs)
  else err

/-- The call-site error surface shared by every lifecycle operation
(e.g. client.go:337-346): if the inner closure returned an error, take
errors.Cause of it and type-switch; the case for the pointer type
*TimeoutExceededError yields the operation-specific fmt.Errorf timeout
message, everything else is wrapped (note the switch shadows err with
the cause, so the generic branch wraps the cause) with the generic
operation message. -/
def surfaceError (timeoutMsg genericMsg : String) : Option GoErr → Option GoErr
  | none => none
  | some e =>
    match errorsCause e with
    | .timeoutExceeded true _ => some (.errorf timeoutMsg)
    | c => some (.wrapped genericMsg c)

/-- The ErrorCoder interface (virtualMachine.go:119): Code() is defined
only on ConnectionError (1), NotFoundError (2) and TimeoutExceededError
(3); wrap layers, fmt.Errorf values and context.DeadlineExceeded do not
implement it. -/
def errorCode : GoErr → Option Int
  | .timeoutExceeded _ _ => some 3
  | .connectionError => some 1
  | .notFoundError _ => some 2
  | _ => none

/-- main (main/main.go:11-20): exit 0 on success; if the returned error
implements ErrorCoder, exit with its Code(), otherwise exit -1. -/
def exitCode : Option GoErr → Int
  | none => 0
  | some e => (errorCode e).getD (-1)

/-- Go strings as character lists, for the byte-slicing path code. -/
abbrev GoString := List Char

/-- Client.makeInventoryPath (client.go:635-643): strip one leading "/"
from the path if present, then produce "/<datacenter>/vm/<path>". -/
def makeInventoryPath (datacenterName : GoString) (path : GoString) : GoString :=
  let path := if (['/'] : GoString).isPrefixOf path then path.drop 1 else path
  ('/' :: datacenterName) ++ (['/', 'v', 'm', '/'] ++ path)

/-- Client.makePath (client.go:647-657): if the inventory path begins
with "/<datacenter>", strip that prefix; if what remains begins with
"/vm/", strip those four characters too; otherwise return the input
unchanged. -/
def makePath (datacenterName : GoString) (inventoryPath : GoString) : GoString :=
  let datacenterNameSegment : GoString := '/' :: datacenterName
  if datacenterNameSegment.isPrefixOf inventoryPath then
    let path := inventoryPath.drop datacenterNameSegment.length
    if (['/', 'v', 'm', '/'] : GoString).isPrefixOf path then path.drop 4 else path
  else inventoryPath

/-- types.VirtualMachinePowerState values returned by vm.VM.PowerState. -/
inductive VMPowerState where
  | poweredOff
  | poweredOn
  | suspended
deriving DecidableEq, Repr

/-- A network-adapter backing descriptor
(types.VirtualEthernetCardNetworkBackingInfo): the code only reads and
writes the DeviceName it carries, plus replaces the whole descriptor. -/
structure BackingInfo where
  deviceName : String
deriving DecidableEq, Repr

/-- A virtual device of the VM, as far as the Device Reconfigurer looks
at it: an identifying key and the network backing descriptor.  Go
mutates device.GetVirtualDevice().Backing in place; the model builds the
updated device value. -/
structure VirtualDevice where
  key : Nat
  backing : BackingInfo
deriving DecidableEq, Repr

/-- A managed object reference to a network (an element of
vm.MO.Network). -/
structure NetworkRef where
  value : String
deriving DecidableEq, Repr

/-- The slice of mo.VirtualMachine.Config the code touches.  The field
is a pointer in Go (nil when the property was not fetched); the Option
on the enclosing snapshot models that.  annot is Config.Annotation. -/
structure VMConfigInfo where
  annot : String
deriving DecidableEq, Repr

/-- The slice of the property snapshot mo.VirtualMachine the code
touches: the network reference list and the config. config is a
pointer in Go; none models nil. -/
structure MOVirtualMachine where
  network : List NetworkRef
  config : Option VMConfigInfo
deriving DecidableEq, Repr

/-- vcon.VirtualMachine (virtualMachine.go:15-19), reduced to the field
the verified operations inspect: MO, the optional eagerly fetched
property snapshot (nil when no properties were requested). -/
structure VirtualMachine where
  mo : Option MOVirtualMachine
deriving DecidableEq, Repr

/-- vcon.VirtualMachineConfiguration (virtualMachine.go:22-26): the
sparse patch with three independently optional fields. -/
structure VirtualMachineConfiguration where
  CPUs : Option Int
  Memory : Option Int
  Network : Option String
deriving DecidableEq, Repr

/-- The part of types.VirtualMachineConfigSpec that Configure fills:
NumCPUs and MemoryMB, zero-valued unless assigned. -/
structure VirtualMachineConfigSpec where
  numCPUs : Int
  memoryMB : Int
deriving DecidableEq, Repr

/-- The remote calls the modelled operations can issue, in issue order.
Read-only calls: deviceList (vm.VM.Device), retrieveNetworkNames
(PropertyCollector.Retrieve of the name property over the given refs),
findNetwork (Finder.Network), ethernetCardBackingInfo,
powerStateQuery (vm.VM.PowerState), waitTask (task.WaitForResult).
Mutating calls: reconfigureTask (vm.VM.Reconfigure), editDevice
(vm.VM.EditDevice with the device value passed), destroyTask
(vm.VM.Destroy). -/
inductive RemoteCall where
  | reconfigureTask (spec : VirtualMachineConfigSpec)
  | waitTask
  | deviceList
  | retrieveNetworkNames (refs : List NetworkRef)
  | findNetwork (name : String)
  | ethernetCardBackingInfo
  | editDevice (d : VirtualDevice)
  | powerStateQuery
  | destroyTask
deriving DecidableEq, Repr

/-- Environment for one submitted task: the submission error, the wait
error, whether the deadline scope was observed elapsed at each of the
two checkErr points inside finishTask, and the task's terminal state. -/
structure TaskEnv where
  submitErr : Option GoErr
  submitDone : Bool
  waitErr : Option GoErr
  waitDone : Bool
  taskSuccess : Bool
  taskFailMsg : String
deriving DecidableEq, Repr

/-- Client.finishTask (client.go:616-631): checkErr on the submission
error (wrapping "While suspend" — the message in the source); then the
WaitForResult remote call, checkErr on its error (wrapping "While
waiting for task to finish"); then fmt.Errorf of the task's localized
failure message unless the task state is success.  Returns the error
outcome and the remote calls issued inside finishTask. -/
def finishTask (t : Nat) (env : TaskEnv) : Option GoErr × List RemoteCall :=
  match checkErr t env.submitDone env.submitErr with
  | some e => (some (.wrapped "While suspend" e), [])
  | none =>
    match checkErr t env.waitDone env.waitErr with
    | some e => (some (.wrapped "While waiting for task to finish" e), [.waitTask])
    | none =>
      if env.taskSuccess then (none, [.waitTask])
      else (some (.errorf env.taskFailMsg), [.waitTask])

/-- Environment for one Configure invocation: the outcome of each
remote call the operation may issue, and whether the deadline scope was
observed elapsed at each checkErr site.  devices is what vm.VM.Device
returns; retrievedNames is the dest slice the property retrieval fills
(one name per requested ref when the collaborator behaves);
networkFound models whether Finder.Network returned a non-nil network;
editErr gives each device-edit call's error (keyed by device key). -/
structure ConfigureEnv where
  reconfigTask : TaskEnv
  reconfigDone : Bool
  deviceListErr : Option GoErr
  deviceListDone : Bool
  devices : List VirtualDevice
  retrieveErr : Option GoErr
  retrieveDone : Bool
  retrievedNames : List String
  findNetworkErr : Option GoErr
  findNetworkDone : Bool
  networkFound : Bool
  backingErr : Option GoErr
  backingDone : Bool
  requestedBacking : BackingInfo
  editErr : Nat → Option GoErr
  editDone : Bool

/-- A Go runtime panic the code can hit: dereferencing a nil pointer
(vm.MO when no property snapshot was fetched, or MO.Config), or
indexing dest[0] on an empty slice. -/
inductive GoPanic where
  | nilDeref
  | indexOutOfRange
deriving DecidableEq, Repr

/-- Configure lines 220-229: build the config spec and the reconfigure
flag from the optional CPUs/Memory fields. -/
def buildCSpec (vmc : VirtualMachineConfiguration) : VirtualMachineConfigSpec × Bool :=
  let cspec : VirtualMachineConfigSpec := { numCPUs := 0, memoryMB := 0 }
  let (cspec, reconfigure) :=
    match vmc.CPUs with
    | some n => ({ cspec with numCPUs := n }, true)
    | none => (cspec, false)
  match vmc.Memory with
  | some m => ({ cspec with memoryMB := m }, true)
  | none => (cspec, reconfigure)

/-- Configure lines 231-237: when either CPU or memory is requested,
submit one Reconfigure task, run it through finishTask, and apply
checkErr to the result; otherwise do nothing. -/
def reconfigPhase (t : Nat) (env : ConfigureEnv) (vmc : VirtualMachineConfiguration) :
    Option GoErr × List RemoteCall :=
  let (cspec, reconfigure) := buildCSpec vmc
  if reconfigure then
    let (terr, tcalls) := finishTask t env.reconfigTask
    (checkErr t env.reconfigDone terr, .reconfigureTask cspec :: tcalls)
  else (none, [])

/-- Configure lines 239-290, the network portion, entered when
vmc.Network is set: enumerate devices; retrieve the names of
vm.MO.Network (dereferencing MO — nil panics); read dest[0] (empty
slice panics); short-circuit (return nil) when the current name equals
the requested one; otherwise select the devices backed by the current
network name, resolve the requested network and its backing descriptor,
and edit each selected device to the new backing, computing and
discarding each edit call's checkErr outcome (the loop continues
regardless and the result is not collected). -/
def networkPhase (t : Nat) (env : ConfigureEnv) (vm : VirtualMachine) (netName : String) :
    Except GoPanic (Option GoErr) × List RemoteCall :=
  match checkErr t env.deviceListDone env.deviceListErr with
  | some e => (.ok (some e), [.deviceList])
  | none =>
    match vm.mo with
    | none => (.error .nilDeref, [.deviceList])
    | some movm =>
      let calls2 : List RemoteCall := [.deviceList, .retrieveNetworkNames movm.network]
      match checkErr t env.retrieveDone env.retrieveErr with
      | some e => (.ok (some e), calls2)
      | none =>
        match env.retrievedNames with
        | [] => (.error .indexOutOfRange, calls2)
        | currentName :: _ =>
          if currentName = netName then (.ok none, calls2)
          else
            let matchingDevices :=
              env.devices.filter (fun d => d.backing.deviceName == currentName)
            let calls3 := calls2 ++ [.findNetwork netName]
            match checkErr t env.findNetworkDone env.findNetworkErr with
            | some e => (.ok (some e), calls3)
            | none =>
              if !env.networkFound then
                (.ok (some (.errorf "Failed to find requested network")), calls3)
              else
                let calls4 := calls3 ++ [.ethernetCardBackingInfo]
                match checkErr t env.backingDone env.backingErr with
                | some e => (.ok (some e), calls4)
                | none =>
                  let editCalls := matchingDevices.map (fun d =>
                    let d2 : VirtualDevice := { d with backing := env.requestedBacking }
                    let _ignored := checkErr t env.editDone (env.editErr d2.key)
                    RemoteCall.editDevice d2)
                  (.ok none, calls4 ++ editCalls)

/-- The inner closure of Client.Configure (client.go:216-293): the
CPU/memory reconfigure phase, early-returning its error; then the
network phase when vmc.Network is set. -/
def ConfigureInner (t : Nat) (env : ConfigureEnv) (vm : VirtualMachine)
    (vmc : VirtualMachineConfiguration) : Except GoPanic (Option GoErr) × List RemoteCall :=
  let (rerr, rcalls) := reconfigPhase t env vmc
  match rerr with
  | some e => (.ok (some e), rcalls)
  | none =>
    match vmc.Network with
    | none => (.ok none, rcalls)
    | some netName =>
      let (res, ncalls) := networkPhase t env vm netName
      (res, rcalls ++ ncalls)

/-- Client.Configure (client.go:211-307): the inner closure followed by
the call-site error surface (client.go:295-304).  A panic propagates. -/
def Configure (t : Nat) (env : ConfigureEnv) (vm : VirtualMachine)
    (vmc : VirtualMachineConfiguration) : Except GoPanic (Option GoErr) × List RemoteCall :=
  let (res, calls) := ConfigureInner t env vm vmc
  match res with
  | .error p => (.error p, calls)
  | .ok inner =>
    (.ok (surfaceError "Timeout while attempting to reconfigure VM"
        "Got error while reconfiguring a VM" inner), calls)

/-- Environment for one Destroy invocation: the power-state query's
error and deadline flag, the live power state it reports, and the
destroy task's environment. -/
structure DestroyEnv where
  psErr : Option GoErr
  psDone : Bool
  powerState : VMPowerState
  task : TaskEnv
deriving DecidableEq, Repr

/-- The inner closure of Client.Destroy (client.go:315-335): query the
power state through checkErr (wrapping "While getting getting power
state" — the doubled word is in the source); refuse with a plain
fmt.Errorf when the state is not poweredOff; otherwise submit the
destroy task and run it through finishTask, wrapping a failure with
"While destroying VM". -/
def DestroyInner (t : Nat) (env : DestroyEnv) : Option GoErr × List RemoteCall :=
  match checkErr t env.psDone env.psErr with
  | some e => (some (.wrapped "While getting getting power state" e), [.powerStateQuery])
  | none =>
    if env.powerState ≠ VMPowerState.poweredOff then
      (some (.errorf "Cannot destroy a Vm that is running"), [.powerStateQuery])
    else
      let (terr, tcalls) := finishTask t env.task
      match terr with
      | some e =>
        (some (.wrapped "While destroying VM" e), .powerStateQuery :: .destroyTask :: tcalls)
      | none => (none, .powerStateQuery :: .destroyTask :: tcalls)

/-- Client.Destroy (client.go:310-349): the inner closure followed by
the call-site error surface (client.go:337-346). -/
def Destroy (t : Nat) (env : DestroyEnv) : Option GoErr × List RemoteCall :=
  let (inner, calls) := DestroyInner t env
  (surfaceError "Timeout while attempting to destroy VM" "Got error while destroy a VM" inner,
    calls)

/-- The Annotation value Client.AssignNote (client.go:103-143) places in
the VirtualMachineConfigSpec it submits: when not overwriting, read
vm.MO.Config.Annotation (a nil MO or nil Config panics) and, when that
existing text is non-empty, prepend it and two newlines to the new
note; otherwise submit the new note alone. -/
def assignNoteSubmitted (vm : VirtualMachine) (note : String) (overwrite : Bool) :
    Except GoPanic String :=
  if !overwrite then
    match vm.mo with
    | none => .error .nilDeref
    | some movm =>
      match movm.config with
      | none => .error .nilDeref
      | some cfg =>
        if cfg.annot.length ≠ 0 then .ok (cfg.annot ++ "\n\n" ++ note)
        else .ok note
  else .ok note

/-- A task environment in which nothing fails and no deadline elapses. -/
def okTask : TaskEnv :=
  { submitErr := none, submitDone := false, waitErr := none, waitDone := false,
    taskSuccess := true, taskFailMsg := "" }

/-- Test fixture: the datacenter name "DC1". -/
def dcName : GoString := ['D', 'C', '1']

/-- Test fixture: the slash-prefixed logical path "/Folder/VM1". -/
def slashPath : GoString := ['/', 'F', 'o', 'l', 'd', 'e', 'r', '/', 'V', 'M', '1']

/-- Test fixture: the logical path "Folder/VM1" without a leading slash. -/
def plainPath : GoString := ['F', 'o', 'l', 'd', 'e', 'r', '/', 'V', 'M', '1']

/-- Test fixture: a Destroy invocation whose deadline has elapsed when
the power-state checkErr runs. -/
def destroyDeadlineEnv : DestroyEnv :=
  { psErr := none, psDone := true, powerState := .poweredOff, task := okTask }

/-- Test fixture: a healthy Destroy invocation against a powered-on VM. -/
def runningDestroyEnv : DestroyEnv :=
  { psErr := none, psDone := false, powerState := .poweredOn, task := okTask }

/-- Test fixture: a Configure invocation with two adapters on "old-net"
where the edit call for device 1 fails. -/
def bestEffortEnv : ConfigureEnv :=
  { reconfigTask := okTask, reconfigDone := false,
    deviceListErr := none, deviceListDone := false,
    devices := [{ key := 1, backing := { deviceName := "old-net" } },
                { key := 2, backing := { deviceName := "old-net" } }],
    retrieveErr := none, retrieveDone := false,
    retrievedNames := ["old-net"],
    findNetworkErr := none, findNetworkDone := false,
    networkFound := true,
    backingErr := none, backingDone := false,
    requestedBacking := { deviceName := "new-net" },
    editErr := fun k => if k = 1 then some (.errorf "device edit failed") else none,
    editDone := false }

/-- Test fixture: a property snapshot with one associated network. -/
def bestEffortMovm : MOVirtualMachine :=
  { network := [{ value := "network-7" }], config := none }

/-- Test fixture: a Configure invocation whose requested network equals
the current one ("prod-net"). -/
def noopEnv : ConfigureEnv :=
  { reconfigTask := okTask, reconfigDone := false,
    deviceListErr := none, deviceListDone := false,
    devices := [{ key := 5, backing := { deviceName := "prod-net" } }],
    retrieveErr := none, retrieveDone := false,
    retrievedNames := ["prod-net"],
    findNetworkErr := none, findNetworkDone := false,
    networkFound := true,
    backingErr := none, backingDone := false,
    requestedBacking := { deviceName := "prod-net" },
    editErr := fun _ => none,
    editDone := false }

/-- Test fixture: a property snapshot with one associated network. -/
def noopMovm : MOVirtualMachine :=
  { network := [{ value := "network-3" }], config := none }

/-- Test fixture: a Configure invocation against a VM with no
associated networks, whose retrieval therefore fills no names. -/
def emptyNetEnv : ConfigureEnv :=
  { reconfigTask := okTask, reconfigDone := false,
    deviceListErr := none, deviceListDone := false,
    devices := [],
    retrieveErr := none, retrieveDone := false,
    retrievedNames := [],
    findNetworkErr := none, findNetworkDone := false,
    networkFound := true,
    backingErr := none, backingDone := false,
    requestedBacking := { deviceName := "x" },
    editErr := fun _ => none,
    editDone := false }

/-- Test fixture: a property snapshot with an empty network list. -/
def emptyNetMovm : MOVirtualMachine := { network := [], config := none }

end Vcon

namespace Vcon

theorem isPrefixOf_append_self (l₁ l₂ : GoString) : l₁.isPrefixOf (l₁ ++ l₂) = true := by
  induction l₁ with
  | nil => simp [List.isPrefixOf]
  | cons a t ih => simp [List.isPrefixOf, ih]

theorem makePath_inv (D rest : GoString) :
    makePath D (('/' :: D) ++ (['/', 'v', 'm', '/'] ++ rest)) = rest := by
  simp only [makePath, isPrefixOf_append_self, if_true]
  rw [show ('/' :: D).length = ('/' :: D).length from rfl, List.drop_left]
  simp only [isPrefixOf_append_self, if_true]
  exact List.drop_left ['/', 'v', 'm', '/'] rest

theorem makePath_makeInventoryPath (D p : GoString) :
    makePath D (makeInventoryPath D p)
      = (if (['/'] : GoString).isPrefixOf p then p.drop 1 else p) := by
  by_cases h : (['/'] : GoString).isPrefixOf p
  · simp only [makeInventoryPath, h, if_true]
    exact makePath_inv D (p.drop 1)
  · simp only [makeInventoryPath, h, if_false]
    exact makePath_inv D p

/-- C1: checkErr, the Deadline Guard, returns a TimeoutExceededError
whenever the deadline has elapsed at check time, regardless of the
underlying call's error — even a non-nil one — and when the deadline
has not elapsed it passes the underlying error (or nil) through
unchanged. -/
theorem checkErr_deadline_priority (t : Nat) (err : Option GoErr) :
    checkErr t true err = some (.timeoutExceeded false t)
      ∧ checkErr t false err = err :=
  ⟨rfl, rfl⟩

/-- C2: at the failing input — a Destroy whose deadline has elapsed
when the power-state checkErr runs — the operation surfaces the generic
"Got error while destroy a VM" wrap of context.DeadlineExceeded instead
of the operation-specific "Timeout while attempting to destroy VM"
message, and the process exit code is -1, not 3: the call-site type
switch on the pointer type *TimeoutExceededError can never match,
because checkErr returns a TimeoutExceededError value and errors.Cause
unwraps it, through its Cause method, to context.DeadlineExceeded
before the switch runs. -/
theorem destroy_deadline_surfaced_generic :
    (Destroy 30 destroyDeadlineEnv).1
        = some (.wrapped "Got error while destroy a VM" .contextDeadlineExceeded)
      ∧ exitCode (Destroy 30 destroyDeadlineEnv).1 = -1 :=
  ⟨rfl, rfl⟩

/-- C3 counterexample: with datacenter "DC1", the logical path
"/Folder/VM1" is not prefixed with the datacenter name (neither as
"DC1..." nor as "/DC1..."), yet the round trip returns "Folder/VM1",
not the original path: the leading slash stripped by makeInventoryPath
is never restored by makePath. -/
theorem roundtrip_fails_on_leading_slash :
    dcName.isPrefixOf slashPath = false
      ∧ ('/' :: dcName).isPrefixOf slashPath = false
      ∧ makePath dcName (makeInventoryPath dcName slashPath) ≠ slashPath := by
  refine ⟨by decide, by decide, by decide⟩

/-- C3 (amended): for every datacenter name and every logical path p
that does not begin with "/", the Path Translator round-trips exactly:
makePath (makeInventoryPath p) = p — no datacenter-prefix condition is
needed, while for p beginning with "/" the round trip returns p with
that one slash removed. -/
theorem roundtrip_without_leading_slash (D p : GoString)
    (h : (['/'] : GoString).isPrefixOf p = false) :
    makePath D (makeInventoryPath D p) = p := by
  simp [makePath_makeInventoryPath, h]

/-- Witness for roundtrip_without_leading_slash: datacenter "DC1" and
path "Folder/VM1", the example in the claim. -/
theorem roundtrip_without_leading_slash_witness :
    (['/'] : GoString).isPrefixOf plainPath = false
      ∧ makePath dcName (makeInventoryPath dcName plainPath) = plainPath :=
  ⟨by decide, roundtrip_without_leading_slash dcName plainPath (by decide)⟩

/-- C7: a configuration patch with all three fields absent makes
Configure perform zero remote calls — no reconfigure task, no device
enumeration, no property retrieval, no device edit — and return
success, for every environment and every VM. -/
theorem configure_sparse_noop (t : Nat) (env : ConfigureEnv) (vm : VirtualMachine) :
    Configure t env vm { CPUs := none, Memory := none, Network := none } = (.ok none, []) :=
  rfl

/-- C9: with overwrite false, AssignNote dereferences the property
snapshot: a VirtualMachine whose MO is nil panics (nil dereference)
instead of returning an error; with overwrite true the snapshot is
never read, so the call succeeds with the new note for every
VirtualMachine. -/
theorem assignNote_nil_snapshot_panics (note : String) (vm : VirtualMachine) :
    assignNoteSubmitted { mo := none } note false = .error .nilDeref
      ∧ assignNoteSubmitted vm note true = .ok note :=
  ⟨rfl, rfl⟩

/-- C5: when the live power-state query succeeds (no deadline elapsed,
no error) and reports a state other than poweredOff, Destroy returns
the precondition failure "Cannot destroy a Vm that is running" (under
the generic call-site wrap) and issues only the read-only power-state
query — in particular no destroy task and no other mutating call, so
the destroy task is submitted only when the queried state is
poweredOff. -/
theorem destroy_precondition (t : Nat) (env : DestroyEnv)
    (h1 : env.psDone = false) (h2 : env.psErr = none)
    (h3 : env.powerState ≠ VMPowerState.poweredOff) :
    Destroy t env
      = (some (.wrapped "Got error while destroy a VM"
          (.errorf "Cannot destroy a Vm that is running")), [.powerStateQuery]) := by
  simp [Destroy, DestroyInner, checkErr, surfaceError, errorsCause, h1, h2, h3]

/-- Witness for destroy_precondition: a powered-on VM. -/
theorem destroy_precondition_witness :
    runningDestroyEnv.powerState ≠ VMPowerState.poweredOff
      ∧ Destroy 30 runningDestroyEnv
          = (some (.wrapped "Got error while destroy a VM"
              (.errorf "Cannot destroy a Vm that is running")), [.powerStateQuery]) :=
  ⟨by decide, destroy_precondition 30 runningDestroyEnv rfl rfl (by decide)⟩

/-- C8: the Annotation AssignNote submits in its reconfigure spec: with
overwrite false and a non-empty pre-fetched existing text a, it is a,
two newlines, then the new note; with overwrite true, or with an empty
existing text, it is the new note alone. -/
theorem assignNote_submitted_text (a b : String) (hne : a.length ≠ 0) :
    assignNoteSubmitted { mo := some { network := [], config := some { annot := a } } } b false
        = .ok (a ++ "\n\n" ++ b)
      ∧ assignNoteSubmitted { mo := some { network := [], config := some { annot := a } } } b true
        = .ok b
      ∧ assignNoteSubmitted { mo := some { network := [], config := some { annot := "" } } } b false
        = .ok b := by
  refine ⟨?_, rfl, rfl⟩
  simp [assignNoteSubmitted, hne]

/-- Witness for assignNote_submitted_text: existing text "A", new note
"B", overwrite false yields "A\n\nB". -/
theorem assignNote_submitted_text_witness :
    "A".length ≠ 0
      ∧ assignNoteSubmitted { mo := some { network := [], config := some { annot := "A" } } }
          "B" false = .ok ("A" ++ "\n\n" ++ "B") :=
  ⟨by decide, (assignNote_submitted_text "A" "B" (by decide)).1⟩

/-- C4: whenever the device-edit loop of Configure runs (a network
change was requested and every preceding remote call is healthy),
Configure returns success and issues one edit call per adapter backed
by the current network, rewiring each to the requested backing
descriptor — and this holds for every assignment of edit-call failures
(the env's editErr is arbitrary), so a failing edit neither aborts the
remaining edits nor propagates to the caller. -/
theorem configure_best_effort (t : Nat) (env : ConfigureEnv) (movm : MOVirtualMachine)
    (netName currentName : String) (rest : List String)
    (h1 : env.deviceListDone = false) (h2 : env.deviceListErr = none)
    (h3 : env.retrieveDone = false) (h4 : env.retrieveErr = none)
    (h5 : env.retrievedNames = currentName :: rest)
    (h6 : currentName ≠ netName)
    (h7 : env.findNetworkDone = false) (h8 : env.findNetworkErr = none)
    (h9 : env.networkFound = true)
    (h10 : env.backingDone = false) (h11 : env.backingErr = none) :
    Configure t env { mo := some movm }
        { CPUs := none, Memory := none, Network := some netName }
      = (.ok none,
        [.deviceList, .retrieveNetworkNames movm.network, .findNetwork netName,
          .ethernetCardBackingInfo]
          ++ (env.devices.filter (fun d => d.backing.deviceName == currentName)).map
              (fun d => .editDevice { d with backing := env.requestedBacking })) := by
  simp [Configure, ConfigureInner, reconfigPhase, buildCSpec, networkPhase, checkErr,
    surfaceError, h1, h2, h3, h4, h5, h6, h7, h8, h9, h10, h11]

/-- Witness for configure_best_effort: two adapters on "old-net", the
edit call for device 1 set up to fail; Configure succeeds and both
adapters are rewired to "new-net". -/
theorem configure_best_effort_witness :
    bestEffortEnv.editErr 1 = some (.errorf "device edit failed")
      ∧ Configure 30 bestEffortEnv { mo := some bestEffortMovm }
            { CPUs := none, Memory := none, Network := some "new-net" }
          = (.ok none,
            [.deviceList, .retrieveNetworkNames [{ value := "network-7" }],
              .findNetwork "new-net", .ethernetCardBackingInfo,
              .editDevice { key := 1, backing := { deviceName := "new-net" } },
              .editDevice { key := 2, backing := { deviceName := "new-net" } }]) := by
  refine ⟨rfl, ?_⟩
  have h := configure_best_effort 30 bestEffortEnv bestEffortMovm "new-net" "old-net" []
    rfl rfl rfl rfl rfl (by decide) rfl rfl rfl rfl rfl
  simpa [bestEffortEnv, bestEffortMovm] using h

/-- C6 counterexample: a configure request naming the VM's current
network ("prod-net") still performs remote calls in the network portion
— the device enumeration and the network-name retrieval — before the
short-circuit returns; since the request sets neither CPUs nor Memory,
every issued call belongs to the network portion, refuting "no remote
calls are performed for the network portion". -/
theorem network_noop_still_reads_remotely :
    Configure 30 noopEnv { mo := some noopMovm }
        { CPUs := none, Memory := none, Network := some "prod-net" }
      = (.ok none, [.deviceList, .retrieveNetworkNames [{ value := "network-3" }]])
      ∧ RemoteCall.deviceList ∈ (Configure 30 noopEnv { mo := some noopMovm }
          { CPUs := none, Memory := none, Network := some "prod-net" }).2 := by
  refine ⟨rfl, ?_⟩
  rw [show (Configure 30 noopEnv { mo := some noopMovm }
      { CPUs := none, Memory := none, Network := some "prod-net" }).2
    = [.deviceList, .retrieveNetworkNames [{ value := "network-3" }]] from rfl]
  exact List.mem_cons_self _ _

/-- C6 (amended): when the requested network name equals the VM's
current (first) network name, Configure returns success after issuing
exactly the device enumeration and the network-name retrieval (two
remote reads): zero device-edit calls, and no network lookup,
backing-info derivation or any other call after the name comparison. -/
theorem configure_network_noop (t : Nat) (env : ConfigureEnv) (movm : MOVirtualMachine)
    (netName : String) (rest : List String)
    (h1 : env.deviceListDone = false) (h2 : env.deviceListErr = none)
    (h3 : env.retrieveDone = false) (h4 : env.retrieveErr = none)
    (h5 : env.retrievedNames = netName :: rest) :
    Configure t env { mo := some movm }
        { CPUs := none, Memory := none, Network := some netName }
      = (.ok none, [.deviceList, .retrieveNetworkNames movm.network]) := by
  simp [Configure, ConfigureInner, reconfigPhase, buildCSpec, networkPhase, checkErr,
    surfaceError, h1, h2, h3, h4, h5]

/-- Witness for configure_network_noop: current and requested network
both "prod-net". -/
theorem configure_network_noop_witness :
    noopEnv.retrievedNames = ["prod-net"]
      ∧ Configure 30 noopEnv { mo := some noopMovm }
            { CPUs := none, Memory := none, Network := some "prod-net" }
          = (.ok none, [.deviceList, .retrieveNetworkNames [{ value := "network-3" }]]) :=
  ⟨rfl, configure_network_noop 30 noopEnv noopMovm "prod-net" [] rfl rfl rfl rfl rfl⟩

theorem networkPhase_no_panic_of_cons (t : Nat) (env : ConfigureEnv)
    (movm : MOVirtualMachine) (netName currentName : String) (rest : List String)
    (h5 : env.retrievedNames = currentName :: rest) :
    ∀ p : GoPanic, (networkPhase t env { mo := some movm } netName).1 ≠ Except.error p := by
  intro p
  unfold networkPhase
  cases hd : checkErr t env.deviceListDone env.deviceListErr with
  | some e => simp
  | none =>
    rw [h5]
    cases hr : checkErr t env.retrieveDone env.retrieveErr with
    | some e => simp
    | none =>
      by_cases hn : currentName = netName
      · simp [hn]
      · simp only [if_neg hn]
        cases hf : checkErr t env.findNetworkDone env.findNetworkErr with
        | some e => simp
        | none =>
          cases hb : env.networkFound with
          | false => simp [hb]
          | true =>
            cases hk : checkErr t env.backingDone env.backingErr with
            | some e => simp [hb]
            | none => simp [hb]

/-- C10: under a ref-consistent retrieval (the dest slice holds one
name per requested network ref) with healthy enumeration and retrieval
calls, the network portion of Configure panics with an index
out-of-range at dest[0] exactly when the VM's associated network list
is empty; it panics with a nil dereference when the property snapshot
is absent; and with a snapshot present and at least one associated
network it never panics. -/
theorem configure_network_indexing (t : Nat) (env : ConfigureEnv)
    (movm : MOVirtualMachine) (netName : String)
    (h1 : env.deviceListDone = false) (h2 : env.deviceListErr = none)
    (h3 : env.retrieveDone = false) (h4 : env.retrieveErr = none)
    (hc : env.retrievedNames.length = movm.network.length) :
    ((networkPhase t env { mo := some movm } netName).1
        = Except.error GoPanic.indexOutOfRange ↔ movm.network = [])
      ∧ (networkPhase t env { mo := none } netName).1 = Except.error GoPanic.nilDeref
      ∧ (movm.network ≠ [] →
          ∀ p : GoPanic,
            (networkPhase t env { mo := some movm } netName).1 ≠ Except.error p) := by
  have hcons : movm.network ≠ [] →
      ∀ p : GoPanic, (networkPhase t env { mo := some movm } netName).1 ≠ Except.error p := by
    intro hne p
    cases hl : env.retrievedNames with
    | nil =>
      exfalso
      apply hne
      apply List.length_eq_zero.mp
      rw [← hc, hl]
      rfl
    | cons c r => exact networkPhase_no_panic_of_cons t env movm netName c r hl p
  refine ⟨⟨?_, ?_⟩, ?_, hcons⟩
  · intro hpanic
    by_contra hne
    exact hcons hne GoPanic.indexOutOfRange hpanic
  · intro hnil
    have hrn : env.retrievedNames = [] := by
      apply List.length_eq_zero.mp
      rw [hc, hnil]
      rfl
    simp [networkPhase, checkErr, h1, h2, h3, h4, hrn]
  · simp [networkPhase, checkErr, h1, h2]

/-- Witness for configure_network_indexing: a snapshot with an empty
network list makes dest come back empty and dest[0] panic, and a
missing snapshot panics dereferencing MO. -/
theorem configure_network_indexing_witness :
    (networkPhase 30 emptyNetEnv { mo := some emptyNetMovm } "N").1
        = Except.error GoPanic.indexOutOfRange
      ∧ (networkPhase 30 emptyNetEnv { mo := none } "N").1 = Except.error GoPanic.nilDeref :=
  ⟨(configure_network_indexing 30 emptyNetEnv emptyNetMovm "N" rfl rfl rfl rfl rfl).1.mpr rfl,
    (configure_network_indexing 30 emptyNetEnv emptyNetMovm "N" rfl rfl rfl rfl rfl).2.1⟩

end Vcon
